import Mathlib

/-!
# telegram-qt: authentication module and raw stream

A shallow embedding of

* `src/TelegramQt/CTelegramAuthModule.cpp` (the two-factor password bookkeeping of the
  authentication module), and
* `src/telegram-qt/CRawStream.cpp` (fixed-width reads and writes over a `QIODevice`),

followed by the properties established about them.

Conventions.  `quint64` values are natural numbers, with `% 2 ^ 64` written out where a
computation can wrap.  `qint32` / `qint64` values are integers in the two's complement range.
A `QByteArray` is a list of byte values.  A C++ function that mutates the object is a function
from the old state to the new one; a function whose behaviour is undefined on some input
(a null pointer is dereferenced, `first()` is taken of an empty map) returns `none` there.
-/

namespace TelegramQt

/-! ## Qt value types -/

/-- Byte string (`QByteArray`): the list of its byte values. -/
abbrev QByteArray := List Nat

/-- Text string (`QString`). -/
abbrev QString := String

/-- Bytes of the UTF-8 encoding of a string (`QString::toUtf8`). -/
def toUtf8 (s : QString) : QByteArray :=
  s.toUTF8.data.toList.map UInt8.toNat

/-! ## `QMap<quint64, T>`

`m_passwordInfo` is declared in `CTelegramAuthModule.hpp`, which is not among the sources; the
member functions the module calls on it (`first()`, `keys()`, `insert`, `contains`, `value`,
`isEmpty`, `clear`) are those of `QMap<quint64, TLAccountPassword>`.  A `QMap` keeps its entries
ordered by key, holds one value per key, and `keys()` / `first()` follow that order. -/

/-- Insertion into a key-ordered entry list; an entry with the same key is replaced. -/
def insertEntries {V : Type} (k : Nat) (v : V) : List (Nat × V) → List (Nat × V)
  | [] => [(k, v)]
  | e :: rest =>
    if k < e.1 then (k, v) :: e :: rest
    else if e.1 < k then e :: insertEntries k v rest
    else (k, v) :: rest

/-- Value stored under `k` in an entry list, if any. -/
def lookupEntries {V : Type} (k : Nat) : List (Nat × V) → Option V
  | [] => none
  | e :: rest => if e.1 = k then some e.2 else lookupEntries k rest

/-- Every key of `insertEntries k v l` is `k` or a key of `l`. -/
theorem key_of_mem_insertEntries {V : Type} (k : Nat) (v : V) (l : List (Nat × V))
    (e : Nat × V) (he : e ∈ insertEntries k v l) : e.1 = k ∨ e ∈ l := by
  induction l with
  | nil =>
    simp only [insertEntries, List.mem_singleton] at he
    exact Or.inl (by rw [he])
  | cons a rest ih =>
    simp only [insertEntries] at he
    split_ifs at he with h1 h2
    · rcases List.mem_cons.1 he with h | h
      · exact Or.inl (by rw [h])
      · exact Or.inr h
    · rcases List.mem_cons.1 he with h | h
      · exact Or.inr (by rw [h]; exact List.mem_cons_self _ _)
      · rcases ih h with h' | h'
        · exact Or.inl h'
        · exact Or.inr (List.mem_cons_of_mem _ h')
    · rcases List.mem_cons.1 he with h | h
      · exact Or.inl (by rw [h])
      · exact Or.inr (List.mem_cons_of_mem _ h)

/-- Insertion keeps an entry list strictly ordered by key. -/
theorem insertEntries_sorted {V : Type} (k : Nat) (v : V) (l : List (Nat × V))
    (hl : l.Pairwise (fun a b => a.1 < b.1)) :
    (insertEntries k v l).Pairwise (fun a b => a.1 < b.1) := by
  induction l with
  | nil => simp [insertEntries]
  | cons a rest ih =>
    have hrest := (List.pairwise_cons.1 hl).2
    have hhead := (List.pairwise_cons.1 hl).1
    simp only [insertEntries]
    split_ifs with h1 h2
    · refine List.pairwise_cons.2 ⟨?_, hl⟩
      intro b hb
      rcases List.mem_cons.1 hb with h | h
      · rw [h]; exact h1
      · exact Nat.lt_trans h1 (hhead b h)
    · refine List.pairwise_cons.2 ⟨?_, ih hrest⟩
      intro b hb
      rcases key_of_mem_insertEntries k v rest b hb with h | h
      · rw [h]; exact h2
      · exact hhead b h
    · have hk : k = a.1 := by omega
      refine List.pairwise_cons.2 ⟨?_, hrest⟩
      intro b hb
      show k < b.1
      rw [hk]; exact hhead b hb

/-- Ordered map from `quint64` keys to values (`QMap<quint64, V>`): its entries in ascending
key order, one entry per key. -/
structure QMap (V : Type) where
  /-- The entries, smallest key first. -/
  entries : List (Nat × V)
  /-- The keys are strictly ascending. -/
  sorted : entries.Pairwise (fun a b => a.1 < b.1)

namespace QMap

/-- The map without entries (a default-constructed `QMap`, or one after `clear()`). -/
def empty {V : Type} : QMap V := ⟨[], List.Pairwise.nil⟩

/-- Model of `QMap::clear`. -/
def clear {V : Type} (_m : QMap V) : QMap V := empty

/-- Model of `QMap::isEmpty`. -/
def isEmpty {V : Type} (m : QMap V) : Bool := m.entries.isEmpty

/-- Model of `QMap::insert`: the value of an existing key is replaced. -/
def insert {V : Type} (m : QMap V) (k : Nat) (v : V) : QMap V :=
  ⟨insertEntries k v m.entries, insertEntries_sorted k v m.entries m.sorted⟩

/-- Model of `QMap::keys`: the keys in ascending order. -/
def keys {V : Type} (m : QMap V) : List Nat := m.entries.map Prod.fst

/-- Model of `QMap::contains`. -/
def contains {V : Type} (m : QMap V) (k : Nat) : Bool := (lookupEntries k m.entries).isSome

/-- Model of `QMap::value`: a default-constructed value when the key is absent. -/
def value {V : Type} [Inhabited V] (m : QMap V) (k : Nat) : V :=
  (lookupEntries k m.entries).getD default

/-- Model of `QMap::first`: the value of the smallest key; undefined on an empty map. -/
def first {V : Type} (m : QMap V) : Option V := m.entries.head?.map Prod.snd

end QMap

/-! ## `Utils::sha256`

The module hashes through `Utils::sha256` (`Utils.hpp`), whose code is not among the sources.
The functions below take the hash as a parameter; this section gives SHA-256 itself, for use
on concrete inputs. -/

namespace Utils

/-- Rotation of a 32-bit word to the right by `n` bits. -/
def rotr32 (x n : Nat) : Nat := ((x >>> n) ||| (x <<< (32 - n))) % 2 ^ 32

/-- The largest `r` below `2 ^ bits`, on top of the bits already fixed in `acc`, with
`r ^ k ≤ n`: the integer `k`-th root of `n`, found bit by bit from the highest. -/
def iroot (k n : Nat) : Nat → Nat → Nat
  | 0, acc => acc
  | bits + 1, acc =>
    if (acc + 2 ^ bits) ^ k ≤ n then iroot k n bits (acc + 2 ^ bits) else iroot k n bits acc

/-- The first `count` primes from `candidate` on, given the smaller primes; `fuel` bounds
the candidates tried. -/
def primesFrom : Nat → Nat → Nat → List Nat → List Nat
  | 0, _, _, found => found
  | _, 0, _, found => found
  | fuel + 1, count + 1, candidate, found =>
    if found.all (fun p => candidate % p != 0) then
      primesFrom fuel count (candidate + 1) (found ++ [candidate])
    else primesFrom fuel (count + 1) (candidate + 1) found

/-- The round constants of SHA-256: the first 32 bits of the fractional parts of the cube
roots of the first 64 primes. -/
def sha256K : List Nat :=
  (primesFrom 400 64 2 []).map (fun p => iroot 3 (p * 2 ^ 96) 40 0 % 2 ^ 32)

/-- The initial hash value of SHA-256: the first 32 bits of the fractional parts of the square
roots of the first 8 primes. -/
def sha256H0 : List Nat :=
  (primesFrom 400 8 2 []).map (fun p => iroot 2 (p * 2 ^ 64) 40 0 % 2 ^ 32)

/-- The `n` bytes of `u`, most significant first. -/
def bytesBE : Nat → Nat → List Nat
  | 0, _ => []
  | n + 1, u => (u / 256 ^ n % 256) :: bytesBE n u

/-- The number with the given bytes, most significant first. -/
def wordBE (bytes : List Nat) : Nat := bytes.foldl (fun acc b => acc * 256 + b % 256) 0

/-- The padded message: a `0x80` byte, zero bytes up to 56 modulo 64, the bit length. -/
def sha256Pad (msg : List Nat) : List Nat :=
  msg ++ [0x80] ++ List.replicate ((119 - msg.length % 64) % 64) 0 ++ bytesBE 8 (8 * msg.length)

/-- Cuts a list into `n` consecutive pieces of `size` elements. -/
def chunks (size : Nat) : Nat → List Nat → List (List Nat)
  | 0, _ => []
  | n + 1, l => l.take size :: chunks size n (l.drop size)

/-- Extends the message schedule by `n` words; `w` holds the words so far, latest first. -/
def sha256Schedule : Nat → List Nat → List Nat
  | 0, w => w
  | n + 1, w =>
    let w2 := w.getD 1 0
    let w7 := w.getD 6 0
    let w15 := w.getD 14 0
    let w16 := w.getD 15 0
    let s0 := rotr32 w15 7 ^^^ rotr32 w15 18 ^^^ (w15 >>> 3)
    let s1 := rotr32 w2 17 ^^^ rotr32 w2 19 ^^^ (w2 >>> 10)
    sha256Schedule n (((w16 + s0 + w7 + s1) % 2 ^ 32) :: w)

/-- One round of the compression function on the working variables `a` … `h`. -/
def sha256Round (v : List Nat) (kw : Nat × Nat) : List Nat :=
  match v with
  | [a, b, c, d, e, f, g, h] =>
    let s1 := rotr32 e 6 ^^^ rotr32 e 11 ^^^ rotr32 e 25
    let ch := (e &&& f) ^^^ ((e ^^^ 0xffffffff) &&& g)
    let t1 := (h + s1 + ch + kw.1 + kw.2) % 2 ^ 32
    let s0 := rotr32 a 2 ^^^ rotr32 a 13 ^^^ rotr32 a 22
    let maj := (a &&& b) ^^^ (a &&& c) ^^^ (b &&& c)
    let t2 := (s0 + maj) % 2 ^ 32
    [(t1 + t2) % 2 ^ 32, a, b, c, (d + t1) % 2 ^ 32, e, f, g]
  | _ => v

/-- The hash value after one more 64-byte block. -/
def sha256Block (hash : List Nat) (block : List Nat) : List Nat :=
  let w := (sha256Schedule 48 (((chunks 4 16 block).map wordBE).reverse)).reverse
  let v := (sha256K.zip w).foldl sha256Round hash
  List.zipWith (fun x y => (x + y) % 2 ^ 32) hash v

/-- Modelled from the spec: `Utils::sha256`, whose code is not among the sources, as the hash
the spec names, SHA-256 (FIPS 180-4): the 32 bytes of the digest of `data`. -/
def sha256 (data : QByteArray) : QByteArray :=
  let padded := sha256Pad data
  let hash := (chunks 64 (padded.length / 64) padded).foldl sha256Block sha256H0
  hash.flatMap (bytesBE 4)

end Utils

/-! ## Collaborators of the authentication module -/

/-- Modelled from the spec: the server's reply to a "get password" request
(`TLAccountPassword`, declared in `TLTypes.hpp`, which is not among the sources), as the spec's
PasswordChallenge "{ currentSalt: byte string, algorithm parameters (opaque) }". -/
structure TLAccountPassword where
  /-- The salt the password is to be hashed with. -/
  currentSalt : QByteArray
  /-- The remaining, uninterpreted parameters of the reply. -/
  parameters : QByteArray
deriving DecidableEq, Repr, Inhabited

/-- Modelled from the spec: the kinds of "unauthorized" error
(`TelegramNamespace::UnauthorizedError`, declared in `TelegramNamespace.hpp`, which is not among
the sources): the "2FA password needed" kind, and the other kinds, told apart by a tag. -/
inductive UnauthorizedError where
  | UnauthorizedSessionPasswordNeeded
  | other (tag : Nat)
deriving DecidableEq, Repr

/-- Requests the authentication module issues through a connection. -/
inductive ConnectionRequest where
  | accountGetPassword
  | authCheckPassword (pwdHash : QByteArray)
deriving DecidableEq, Repr

/-- Modelled from the spec: the Connection collaborator (`CTelegramConnection`, whose code is
not among the sources), reduced to what the authentication module observes of it: the requests
issued through it so far, and the request identifier it assigns to its `n`-th request
("an opaque 64-bit handle assigned by the Connection when a request is issued"). -/
structure CTelegramConnection where
  /-- The requests issued so far, oldest first. -/
  sent : List ConnectionRequest
  /-- The identifier given to the request issued when `n` requests were issued before. -/
  requestId : Nat → Nat

namespace CTelegramConnection

/-- Modelled from the spec: `accountGetPassword() -> RequestId`. -/
def accountGetPassword (c : CTelegramConnection) : Nat × CTelegramConnection :=
  (c.requestId c.sent.length % 2 ^ 64,
    { sent := c.sent ++ [ConnectionRequest.accountGetPassword], requestId := c.requestId })

/-- Modelled from the spec: `authCheckPassword(digest)`. -/
def authCheckPassword (c : CTelegramConnection) (pwdHash : QByteArray) : CTelegramConnection :=
  { sent := c.sent ++ [ConnectionRequest.authCheckPassword pwdHash], requestId := c.requestId }

end CTelegramConnection

/-! ## `CTelegramAuthModule` -/

/-- State of the authentication module, together with what it reaches through
`activeConnection()` and the `passwordInfoReceived` signals it has emitted. -/
structure CTelegramAuthModule where
  /-- The received password challenges, by request identifier. -/
  m_passwordInfo : QMap TLAccountPassword
  /-- The phone number a code was last requested for. -/
  m_requestedCodeForPhone : QString
  /-- The connection `activeConnection()` returns; `none` for a null pointer. -/
  activeConnection : Option CTelegramConnection
  /-- Arguments of the `passwordInfoReceived` signals emitted so far, oldest first. -/
  passwordInfoReceived : List Nat

namespace CTelegramAuthModule

/-- Model of `CTelegramAuthModule::onConnectionStatusChanged`. -/
def onConnectionStatusChanged (s : CTelegramAuthModule) : CTelegramAuthModule :=
  { s with m_passwordInfo := s.m_passwordInfo.clear }

/-- Model of `CTelegramAuthModule::clear`. -/
def clear (s : CTelegramAuthModule) : CTelegramAuthModule :=
  { s with m_passwordInfo := s.m_passwordInfo.clear }

/-- Model of `CTelegramAuthModule::getPassword`: the returned request identifier and the new
state. -/
def getPassword (s : CTelegramAuthModule) : Nat × CTelegramAuthModule :=
  match s.activeConnection with
  | none => (0, s)
  | some c =>
    (c.accountGetPassword.1,
      { s with m_passwordInfo := s.m_passwordInfo.clear,
               activeConnection := some c.accountGetPassword.2 })

/-- Model of `CTelegramAuthModule::tryPassword(const QByteArray &, const QByteArray &)`.
`sha256` stands for `Utils::sha256`, whose code is not among the sources. -/
def tryPassword (sha256 : QByteArray → QByteArray) (s : CTelegramAuthModule)
    (salt password : QByteArray) : CTelegramAuthModule :=
  match s.activeConnection with
  | none => s
  | some c =>
    let pwdData := salt ++ password ++ salt
    let pwdHash := sha256 pwdData
    { s with activeConnection := some (c.authCheckPassword pwdHash) }

/-- Model of `CTelegramAuthModule::tryPassword(const QString &)`.  On an empty store the
function only warns and goes on to `m_passwordInfo.first()`, which is undefined: `none`. -/
def tryPasswordQString (sha256 : QByteArray → QByteArray) (s : CTelegramAuthModule)
    (password : QString) : Option CTelegramAuthModule :=
  match s.m_passwordInfo.first with
  | none => none
  | some info => some (tryPassword sha256 s info.currentSalt (toUtf8 password))

/-- Model of `CTelegramAuthModule::onUnauthorizedErrorReceived`.  The connection pointer is
dereferenced unchecked: `none` when it is null and the error is the "password needed" one. -/
def onUnauthorizedErrorReceived (s : CTelegramAuthModule) (errorCode : UnauthorizedError) :
    Option CTelegramAuthModule :=
  match errorCode with
  | UnauthorizedError.UnauthorizedSessionPasswordNeeded =>
    match s.activeConnection with
    | none => none
    | some c => some { s with activeConnection := some c.accountGetPassword.2 }
  | _ => some s

/-- Model of `CTelegramAuthModule::onPasswordReceived`. -/
def onPasswordReceived (s : CTelegramAuthModule) (password : TLAccountPassword)
    (requestId : Nat) : CTelegramAuthModule :=
  { s with m_passwordInfo := s.m_passwordInfo.insert requestId password,
           passwordInfoReceived := s.passwordInfoReceived ++ [requestId] }

/-- Model of `CTelegramAuthModule::getPasswordData`: the returned flag and the content of
`*passwordInfo` after the call (`passwordInfo` is its content before the call). -/
def getPasswordData (s : CTelegramAuthModule) (passwordInfo : TLAccountPassword)
    (requestId : Nat) : Bool × TLAccountPassword :=
  if s.m_passwordInfo.isEmpty then (false, passwordInfo)
  else
    let requestId :=
      if requestId = 0 then
        match s.m_passwordInfo.keys with
        | [] => requestId
        | k :: _ => k
      else requestId
    if !s.m_passwordInfo.contains requestId then (false, passwordInfo)
    else (true, s.m_passwordInfo.value requestId)

end CTelegramAuthModule

/-! ## `QIODevice` and `CRawStream` -/

/-- Byte order of the host (`QSysInfo::ByteOrder`): the order in which the bytes of an integer
object lie in memory. -/
inductive ByteOrder where
  | LittleEndian
  | BigEndian
deriving DecidableEq, Repr

/-- The `n` low-order base-256 digits of `u`, least significant first. -/
def toBytesLE : Nat → Nat → QByteArray
  | 0, _ => []
  | n + 1, u => (u % 256) :: toBytesLE n (u / 256)

/-- The number whose base-256 digits, least significant first, are the given bytes. -/
def fromBytesLE : QByteArray → Nat
  | [] => 0
  | b :: bs => b + 256 * fromBytesLE bs

/-- Object representation of a signed integer of `width` bytes: the bytes of its two's
complement value as they lie in memory, lowest address first (what `(char *)&i` points at). -/
def objectBytes (order : ByteOrder) (width : Nat) (i : Int) : QByteArray :=
  match order with
  | ByteOrder.LittleEndian => toBytesLE width (i % 2 ^ (8 * width)).toNat
  | ByteOrder.BigEndian => (toBytesLE width (i % 2 ^ (8 * width)).toNat).reverse

/-- The signed integer of `width` bytes whose object representation is `bytes`. -/
def objectValue (order : ByteOrder) (width : Nat) (bytes : QByteArray) : Int :=
  let u : Nat :=
    match order with
    | ByteOrder.LittleEndian => fromBytesLE bytes
    | ByteOrder.BigEndian => fromBytesLE bytes.reverse
  if u < 2 ^ (8 * width - 1) then (u : Int) else (u : Int) - 2 ^ (8 * width)

/-- The device behind a stream (`QIODevice`), as Qt's random-access in-memory device
(`QBuffer`) behaves: a byte buffer, the current position in it, and the open mode. -/
structure QIODevice where
  /-- The bytes held by the device. -/
  buffer : QByteArray
  /-- The current read / write position. -/
  pos : Nat
  /-- Whether the device is open for reading. -/
  readable : Bool
  /-- Whether the device is open for writing. -/
  writable : Bool
deriving DecidableEq, Repr

namespace QIODevice

/-- The bytes a read can obtain: those from the position to the end of the buffer, none when
the device is not open for reading. -/
def readableBytes (d : QIODevice) : QByteArray :=
  if d.readable then d.buffer.drop d.pos else []

/-- Model of `QIODevice::read(char *data, qint64 maxSize)`: at most `maxSize` bytes are taken
from the position, which moves past them; the bytes obtained and the new device. -/
def read (d : QIODevice) (maxSize : Nat) : QByteArray × QIODevice :=
  (d.readableBytes.take maxSize, { d with pos := d.pos + (d.readableBytes.take maxSize).length })

/-- Model of `QIODevice::write(const char *data, qint64 maxSize)`: the bytes are stored at the
position, over existing bytes and past the end as needed, and the position moves past them;
nothing happens when the device is not open for writing. -/
def write (d : QIODevice) (data : QByteArray) : QIODevice :=
  if d.writable then
    { d with buffer := d.buffer.take d.pos ++ data ++ d.buffer.drop (d.pos + data.length),
             pos := d.pos + data.length }
  else d

/-- Model of `QIODevice::seek`. -/
def seek (d : QIODevice) (pos : Nat) : QIODevice := { d with pos := pos }

end QIODevice

/-- Model of `CRawStream`: the device pointer `m_device`, `none` when null. -/
structure CRawStream where
  /-- The attached device. -/
  m_device : Option QIODevice
deriving DecidableEq, Repr

namespace CRawStream

/-- Model of `CRawStream::setDevice`. -/
def setDevice (_s : CRawStream) (newDevice : QIODevice) : CRawStream := ⟨some newDevice⟩

/-- Model of `CRawStream::unsetDevice`. -/
def unsetDevice (_s : CRawStream) : CRawStream := ⟨none⟩

/-- Model of `CRawStream::readBytes`; undefined without a device. -/
def readBytes (s : CRawStream) (count : Nat) : Option (CRawStream × QByteArray) :=
  match s.m_device with
  | none => none
  | some d => some (⟨some (d.read count).2⟩, (d.read count).1)

/-- Model of `CRawStream::operator>>(qint32 &i)`: `m_device->read((char *)&i, 4)`.  The bytes
obtained replace the leading bytes of the object `i`, whose other bytes keep their content; the
count `read` returns is not looked at.  The result is the stream and the value of `i` after the
call (`i` is its value before); undefined without a device. -/
def read_qint32 (order : ByteOrder) (s : CRawStream) (i : Int) : Option (CRawStream × Int) :=
  match s.m_device with
  | none => none
  | some d =>
    some (⟨some (d.read 4).2⟩,
      objectValue order 4 ((d.read 4).1 ++ (objectBytes order 4 i).drop (d.read 4).1.length))

/-- Model of `CRawStream::operator>>(qint64 &i)`: `m_device->read((char *)&i, 8)`. -/
def read_qint64 (order : ByteOrder) (s : CRawStream) (i : Int) : Option (CRawStream × Int) :=
  match s.m_device with
  | none => none
  | some d =>
    some (⟨some (d.read 8).2⟩,
      objectValue order 8 ((d.read 8).1 ++ (objectBytes order 8 i).drop (d.read 8).1.length))

/-- Model of `CRawStream::operator<<(qint32 i)`: `m_device->write((const char *) &i, 4)`;
undefined without a device. -/
def write_qint32 (order : ByteOrder) (s : CRawStream) (i : Int) : Option CRawStream :=
  match s.m_device with
  | none => none
  | some d => some ⟨some (d.write (objectBytes order 4 i))⟩

/-- Model of `CRawStream::operator<<(qint64 i)`: `m_device->write((const char *) &i, 8)`. -/
def write_qint64 (order : ByteOrder) (s : CRawStream) (i : Int) : Option CRawStream :=
  match s.m_device with
  | none => none
  | some d => some ⟨some (d.write (objectBytes order 8 i))⟩

end CRawStream

end TelegramQt

namespace TelegramQt
namespace CTelegramAuthModule

/-! ## Example data -/

/-- A challenge with salt `0x01 0x02`. -/
def challengeA : TLAccountPassword := ⟨[1, 2], []⟩

/-- A challenge with salt `0x03 0x04`. -/
def challengeB : TLAccountPassword := ⟨[3, 4], [9]⟩

/-- A connection through which nothing was issued yet and which numbers its requests from 1. -/
def freshConnection : CTelegramConnection := ⟨[], fun n => n + 1⟩

/-- A module with an empty store and an active connection. -/
def connectedModule : CTelegramAuthModule := ⟨QMap.empty, "", some freshConnection, []⟩

/-- A module with an empty store and no active connection. -/
def disconnectedModule : CTelegramAuthModule := ⟨QMap.empty, "", none, []⟩

/-- A module holding `challengeA` under request id 7, with no active connection. -/
def staleModule : CTelegramAuthModule :=
  onPasswordReceived disconnectedModule challengeA 7

/-- A module holding `challengeA` under request id 7, with an active connection. -/
def challengedModule : CTelegramAuthModule :=
  onPasswordReceived connectedModule challengeA 7

/-- The state after the replies in `replies` (challenge and request id) were delivered to
`onPasswordReceived`, first to last. -/
def receiveAll (s : CTelegramAuthModule) (replies : List (TLAccountPassword × Nat)) :
    CTelegramAuthModule :=
  replies.foldl (fun t r => onPasswordReceived t r.1 r.2) s

end CTelegramAuthModule
end TelegramQt

namespace TelegramQt
namespace CRawStream

/-- An empty device open for reading and writing. -/
def emptyDevice : QIODevice := ⟨[], 0, true, true⟩

/-- A device open for reading that holds the two bytes `0x01 0x02`. -/
def shortDevice : QIODevice := ⟨[1, 2], 0, true, false⟩

/-- The device `shortDevice` once its two bytes were read: nothing is left to read. -/
def exhaustedDevice : QIODevice := ⟨[1, 2], 2, true, false⟩

/-- A device open for reading and writing that holds six bytes, positioned at its start. -/
def filledDevice : QIODevice := ⟨[9, 9, 9, 9, 9, 9], 0, true, true⟩

end CRawStream
end TelegramQt


namespace TelegramQt

/-! ## Facts about the ordered map -/

/-- Looking up the key just inserted gives the inserted value. -/
theorem lookupEntries_insertEntries_self {V : Type} (k : Nat) (v : V) (l : List (Nat × V)) :
    lookupEntries k (insertEntries k v l) = some v := by
  induction l with
  | nil => simp [insertEntries, lookupEntries]
  | cons a rest ih =>
    simp only [insertEntries]
    split_ifs with h1 h2
    · simp [lookupEntries]
    · have hne : ¬ a.1 = k := by omega
      simp [lookupEntries, hne, ih]
    · simp [lookupEntries]

/-- Insertion under `k` does not change what is stored under another key. -/
theorem lookupEntries_insertEntries_ne {V : Type} (k k' : Nat) (v : V) (l : List (Nat × V))
    (hne : k' ≠ k) : lookupEntries k' (insertEntries k v l) = lookupEntries k' l := by
  induction l with
  | nil =>
    have h : ¬ k = k' := fun h => hne h.symm
    simp [insertEntries, lookupEntries, h]
  | cons a rest ih =>
    have h : ¬ k = k' := fun h => hne h.symm
    simp only [insertEntries]
    split_ifs with h1 h2
    · simp [lookupEntries, h]
    · by_cases ha : a.1 = k'
      · simp [lookupEntries, ha]
      · simp [lookupEntries, ha, ih]
    · have hk : a.1 = k := by omega
      have ha : ¬ a.1 = k' := by omega
      simp [lookupEntries, h, ha]

/-- An entry list that received an insertion is not empty. -/
theorem insertEntries_ne_nil {V : Type} (k : Nat) (v : V) (l : List (Nat × V)) :
    insertEntries k v l ≠ [] := by
  cases l with
  | nil => simp [insertEntries]
  | cons a rest =>
    simp only [insertEntries]
    split_ifs <;> simp

/-- After an insertion under key `0` the first entry is the inserted one. -/
theorem insertEntries_zero_head {V : Type} (v : V) (l : List (Nat × V)) :
    ∃ rest, insertEntries 0 v l = (0, v) :: rest := by
  cases l with
  | nil => exact ⟨[], rfl⟩
  | cons a rest =>
    simp only [insertEntries]
    split_ifs with h1 h2
    · exact ⟨a :: rest, rfl⟩
    · omega
    · exact ⟨rest, rfl⟩

/-- In a key-ordered entry list, the stored value of a key is the value of its entry. -/
theorem lookupEntries_of_mem {V : Type} (l : List (Nat × V))
    (hl : l.Pairwise (fun a b => a.1 < b.1)) (k : Nat) (v : V) (h : (k, v) ∈ l) :
    lookupEntries k l = some v := by
  induction l with
  | nil => simp at h
  | cons a rest ih =>
    have hrest := (List.pairwise_cons.1 hl).2
    have hhead := (List.pairwise_cons.1 hl).1
    rcases List.mem_cons.1 h with h' | h'
    · simp [lookupEntries, ← h']
    · have hlt := hhead _ h'
      have hne : ¬ a.1 = k := by simp at hlt; omega
      simp [lookupEntries, hne, ih hrest h']

/-- A stored value belongs to an entry of the list. -/
theorem mem_of_lookupEntries {V : Type} (l : List (Nat × V)) (k : Nat) (v : V)
    (h : lookupEntries k l = some v) : (k, v) ∈ l := by
  induction l with
  | nil => simp [lookupEntries] at h
  | cons a rest ih =>
    simp only [lookupEntries] at h
    split_ifs at h with h1
    · have h2 : a.2 = v := by simpa using h
      have : a = (k, v) := by rw [← h1, ← h2]
      rw [this]; exact List.mem_cons_self _ _
    · exact List.mem_cons_of_mem _ (ih h)

/-- Two maps with the same entry list are the same map. -/
theorem QMap.ext_entries {V : Type} (a b : QMap V) (h : a.entries = b.entries) : a = b := by
  cases a; cases b; simp only [QMap.mk.injEq]; exact h

end TelegramQt

namespace TelegramQt

/-- Two maps that store the same value, or none, under every key are the same map. -/
theorem QMap.ext_lookup {V : Type} (a b : QMap V)
    (h : ∀ k, lookupEntries k a.entries = lookupEntries k b.entries) : a = b := by
  apply QMap.ext_entries
  have hmem : ∀ e, e ∈ a.entries ↔ e ∈ b.entries := by
    intro e
    constructor
    · intro he
      have h1 := lookupEntries_of_mem a.entries a.sorted e.1 e.2 he
      rw [h] at h1
      exact mem_of_lookupEntries b.entries e.1 e.2 h1
    · intro he
      have h1 := lookupEntries_of_mem b.entries b.sorted e.1 e.2 he
      rw [← h] at h1
      exact mem_of_lookupEntries a.entries e.1 e.2 h1
  have hnd : ∀ m : QMap V, m.entries.Nodup := by
    intro m
    refine List.Pairwise.imp ?_ m.sorted
    intro x y hxy hEq
    rw [hEq] at hxy
    exact Nat.lt_irrefl _ hxy
  have hperm : a.entries.Perm b.entries :=
    (List.perm_ext_iff_of_nodup (hnd a) (hnd b)).2 hmem
  have hanti : IsAntisymm (Nat × V) (fun x y => x.1 < y.1) :=
    ⟨fun x y hxy hyx => absurd (Nat.lt_trans hxy hyx) (Nat.lt_irrefl _)⟩
  exact List.eq_of_perm_of_sorted hperm a.sorted b.sorted

/-- Insertions under different keys commute. -/
theorem QMap.insert_comm {V : Type} (m : QMap V) (k₁ k₂ : Nat) (v₁ v₂ : V) (hne : k₁ ≠ k₂) :
    (m.insert k₁ v₁).insert k₂ v₂ = (m.insert k₂ v₂).insert k₁ v₁ := by
  apply QMap.ext_lookup
  intro k
  show lookupEntries k (insertEntries k₂ v₂ (insertEntries k₁ v₁ m.entries)) =
    lookupEntries k (insertEntries k₁ v₁ (insertEntries k₂ v₂ m.entries))
  by_cases h1 : k = k₁
  · subst h1
    rw [lookupEntries_insertEntries_ne k₂ k v₂ _ hne, lookupEntries_insertEntries_self,
      lookupEntries_insertEntries_self]
  · by_cases h2 : k = k₂
    · subst h2
      rw [lookupEntries_insertEntries_self, lookupEntries_insertEntries_ne k₁ k v₁ _ h1,
        lookupEntries_insertEntries_self]
    · rw [lookupEntries_insertEntries_ne k₂ k v₂ _ h2,
        lookupEntries_insertEntries_ne k₁ k v₁ _ h1,
        lookupEntries_insertEntries_ne k₁ k v₁ _ h1,
        lookupEntries_insertEntries_ne k₂ k v₂ _ h2]

end TelegramQt

namespace TelegramQt

/-- The first entry of a key-ordered entry list has the smallest key. -/
theorem head_key_le {V : Type} (a : Nat × V) (rest : List (Nat × V))
    (hl : (a :: rest).Pairwise (fun x y => x.1 < y.1)) (e : Nat × V) (he : e ∈ a :: rest) :
    a.1 ≤ e.1 := by
  rcases List.mem_cons.1 he with h | h
  · rw [h]
  · exact Nat.le_of_lt ((List.pairwise_cons.1 hl).1 e h)

/-- A map that `isEmpty` is the empty map. -/
theorem QMap.eq_empty_of_isEmpty {V : Type} (m : QMap V) (h : m.isEmpty = true) :
    m = QMap.empty := by
  apply QMap.ext_entries
  simpa [QMap.isEmpty] using h

namespace CTelegramAuthModule

/-! ## The password challenge store -/

/-- After `onPasswordReceived(challenge, id)` the lookup of `id` succeeds with `challenge`. -/
theorem getPasswordData_stored (s : CTelegramAuthModule)
    (challenge out : TLAccountPassword) (id : Nat) :
    getPasswordData (onPasswordReceived s challenge id) out id = (true, challenge) := by
  have hne := insertEntries_ne_nil id challenge s.m_passwordInfo.entries
  have hself := lookupEntries_insertEntries_self id challenge s.m_passwordInfo.entries
  by_cases h0 : id = 0
  · subst h0
    obtain ⟨rest, hrest⟩ := insertEntries_zero_head challenge s.m_passwordInfo.entries
    simp [getPasswordData, onPasswordReceived, QMap.isEmpty, QMap.insert, QMap.keys,
      QMap.contains, QMap.value, hrest, lookupEntries]
  · simp [getPasswordData, onPasswordReceived, QMap.isEmpty, QMap.insert,
      QMap.contains, QMap.value, hne, h0, hself]

/-- The lookup fails on an empty store, whatever the request id, and leaves `out` as it was. -/
theorem getPasswordData_of_isEmpty (s : CTelegramAuthModule) (out : TLAccountPassword)
    (id : Nat) (h : s.m_passwordInfo.isEmpty = true) :
    getPasswordData s out id = (false, out) := by
  simp [getPasswordData, h]

/-- The lookup of a non-zero request id that has no entry fails and leaves `out` as it was. -/
theorem getPasswordData_of_absent (s : CTelegramAuthModule) (out : TLAccountPassword)
    (id : Nat) (h0 : id ≠ 0) (h : lookupEntries id s.m_passwordInfo.entries = none) :
    getPasswordData s out id = (false, out) := by
  by_cases he : s.m_passwordInfo.isEmpty = true
  · exact getPasswordData_of_isEmpty s out id he
  · simp [getPasswordData, he, h0, QMap.contains, h]

/-- On a non-empty store the lookup of the sentinel `0` succeeds with the value of the first
entry, whose key is the smallest of the store. -/
theorem getPasswordData_zero (s : CTelegramAuthModule) (out : TLAccountPassword)
    (h : s.m_passwordInfo.isEmpty = false) :
    ∃ k v, (k, v) ∈ s.m_passwordInfo.entries ∧ (∀ e ∈ s.m_passwordInfo.entries, k ≤ e.1) ∧
      s.m_passwordInfo.first = some v ∧ getPasswordData s out 0 = (true, v) := by
  have hs := s.m_passwordInfo.sorted
  cases hent : s.m_passwordInfo.entries with
  | nil => simp [QMap.isEmpty, hent] at h
  | cons a rest =>
    rw [hent] at hs
    refine ⟨a.1, a.2, List.mem_cons_self _ _, fun e he => head_key_le a rest hs e he, ?_, ?_⟩
    · simp [QMap.first, hent]
    · simp [getPasswordData, QMap.isEmpty, QMap.keys, QMap.contains, QMap.value, hent,
        lookupEntries]

/-- C1: for every state of the module, every challenge and every request id, after
`onPasswordReceived(challenge, id)` the call `getPasswordData(out, id)` returns true and sets
`out` to `challenge`; the store then holds no other challenge under `id` (one stored before
under the same id is replaced). -/
theorem getPasswordData_onPasswordReceived (s : CTelegramAuthModule)
    (challenge out : TLAccountPassword) (id : Nat) :
    getPasswordData (onPasswordReceived s challenge id) out id = (true, challenge) ∧
      ∀ other, (id, other) ∈ (onPasswordReceived s challenge id).m_passwordInfo.entries →
        other = challenge := by
  refine ⟨getPasswordData_stored s challenge out id, ?_⟩
  intro other hmem
  have hs := (onPasswordReceived s challenge id).m_passwordInfo.sorted
  have h1 := lookupEntries_of_mem _ hs id other hmem
  have h2 : lookupEntries id (onPasswordReceived s challenge id).m_passwordInfo.entries
      = some challenge :=
    lookupEntries_insertEntries_self id challenge s.m_passwordInfo.entries
  rw [h1] at h2
  exact Option.some.inj h2

/-- C2, as stated, fails at the largest 64-bit request id: `id + 1` wraps to the sentinel `0`,
which resolves to the only stored key, so the lookup succeeds and overwrites `out`. -/
theorem getPasswordData_absent_key_counterexample :
    disconnectedModule.m_passwordInfo.isEmpty = true ∧ 2 ^ 64 - 1 < 2 ^ 64 ∧
      getPasswordData (onPasswordReceived disconnectedModule challengeA (2 ^ 64 - 1)) challengeB
        ((2 ^ 64 - 1 + 1) % 2 ^ 64) = (true, challengeA) := by
  decide

/-- C2, as amended: starting from an empty store, for every challenge and every request id
below `2 ^ 64 - 1`, after `onPasswordReceived(challenge, id)` the call
`getPasswordData(out, id + 1)` returns false and leaves `out` unchanged; and on an empty store
`getPasswordData` returns false for every request id, leaving `out` unchanged. -/
theorem getPasswordData_absent_key (s : CTelegramAuthModule)
    (challenge out : TLAccountPassword) (id : Nat)
    (hempty : s.m_passwordInfo.isEmpty = true) (hid : id < 2 ^ 64 - 1) :
    getPasswordData (onPasswordReceived s challenge id) out ((id + 1) % 2 ^ 64)
        = (false, out) ∧
      ∀ requestId, getPasswordData s out requestId = (false, out) := by
  constructor
  · have hmod : (id + 1) % 2 ^ 64 = id + 1 := Nat.mod_eq_of_lt (by omega)
    rw [hmod]
    apply getPasswordData_of_absent _ _ _ (by omega)
    have hnil : s.m_passwordInfo.entries = [] := by
      simpa [QMap.isEmpty] using hempty
    show lookupEntries (id + 1) (insertEntries id challenge s.m_passwordInfo.entries) = none
    rw [lookupEntries_insertEntries_ne id (id + 1) challenge _ (by omega), hnil]
    rfl
  · intro requestId
    exact getPasswordData_of_isEmpty s out requestId hempty

/-- Witness of C2 as amended: request id 42 on the empty store. -/
theorem getPasswordData_absent_key_witness :
    getPasswordData (onPasswordReceived disconnectedModule challengeA 42) challengeB
        ((42 + 1) % 2 ^ 64) = (false, challengeB) ∧
      ∀ requestId,
        getPasswordData disconnectedModule challengeB requestId = (false, challengeB) :=
  getPasswordData_absent_key disconnectedModule challengeA challengeB 42 (by decide) (by decide)

end CTelegramAuthModule
end TelegramQt

namespace TelegramQt
namespace CTelegramAuthModule

set_option maxRecDepth 1000000

/-! ## Requests -/

/-- C3, as stated, fails on a module that holds a challenge and has no active connection:
`getPassword()` returns 0 and the store keeps the challenge. -/
theorem getPassword_disconnected_counterexample :
    staleModule.activeConnection.isNone = true ∧ (getPassword staleModule).1 = 0 ∧
      (getPassword staleModule).2.m_passwordInfo.isEmpty = false ∧
      (getPassword staleModule).2.m_passwordInfo.entries = [(7, challengeA)] := by
  decide

/-- C3, as amended: for every state of the module with no active connection, `getPassword()`
returns the sentinel 0 and changes nothing: no request is issued and the store is as it was, so
empty when it was empty. -/
theorem getPassword_disconnected (s : CTelegramAuthModule) (h : s.activeConnection = none) :
    getPassword s = (0, s) ∧
      (s.m_passwordInfo.isEmpty = true → (getPassword s).2.m_passwordInfo.isEmpty = true) := by
  have hget : getPassword s = (0, s) := by simp [getPassword, h]
  refine ⟨hget, fun he => ?_⟩
  rw [hget]; exact he

/-- Witness of C3 as amended: the module with an empty store and no connection. -/
theorem getPassword_disconnected_witness :
    getPassword disconnectedModule = (0, disconnectedModule) ∧
      (disconnectedModule.m_passwordInfo.isEmpty = true →
        (getPassword disconnectedModule).2.m_passwordInfo.isEmpty = true) :=
  getPassword_disconnected disconnectedModule rfl

/-- C4: for every salt and every password, with an active connection,
`tryPassword(salt, password)` issues exactly one request, `authCheckPassword`, whose argument
is the hash of `salt ++ password ++ salt`; nothing else of the module changes.  This holds
whatever function `Utils::sha256` computes. -/
theorem tryPassword_submits (sha256 : QByteArray → QByteArray) (s : CTelegramAuthModule)
    (c : CTelegramConnection) (salt password : QByteArray) (h : s.activeConnection = some c) :
    tryPassword sha256 s salt password =
      { s with
        activeConnection := some
          ⟨c.sent ++ [ConnectionRequest.authCheckPassword (sha256 (salt ++ password ++ salt))],
            c.requestId⟩ } := by
  simp [tryPassword, h, CTelegramConnection.authCheckPassword]

/-- Witness of C4: salt `0x01 0x02` and password "hunter2" on a fresh connection, hashed with
SHA-256; the digest submitted is `b36ddf5f…1e91ac`. -/
theorem tryPassword_submits_witness :
    tryPassword Utils.sha256 connectedModule [1, 2] (toUtf8 "hunter2") =
        { connectedModule with
          activeConnection := some
            ⟨freshConnection.sent ++ [ConnectionRequest.authCheckPassword
                (Utils.sha256 ([1, 2] ++ toUtf8 "hunter2" ++ [1, 2]))],
              freshConnection.requestId⟩ } ∧
      Utils.sha256 ([1, 2] ++ toUtf8 "hunter2" ++ [1, 2]) =
        [179, 109, 223, 95, 115, 93, 25, 141, 244, 93, 77, 29, 109, 8, 36, 214,
          53, 197, 15, 219, 236, 173, 108, 42, 146, 16, 128, 0, 226, 30, 145, 172] :=
  ⟨tryPassword_submits Utils.sha256 connectedModule freshConnection [1, 2]
      (toUtf8 "hunter2") rfl,
    by decide⟩

/-- C6, as stated, fails on a module that holds a challenge: the error handler issues the
request and keeps the challenge, whereas `getPassword()` empties the store. -/
theorem onUnauthorizedErrorReceived_counterexample :
    challengedModule.activeConnection.isSome = true ∧
      (onUnauthorizedErrorReceived challengedModule
          UnauthorizedError.UnauthorizedSessionPasswordNeeded).map
        (fun t => t.m_passwordInfo.entries) = some [(7, challengeA)] ∧
      (getPassword challengedModule).2.m_passwordInfo.entries = [] := by
  decide

/-- C6, as amended: for every state of the module with an active connection,
`onUnauthorizedErrorReceived(UnauthorizedSessionPasswordNeeded)` issues one
`accountGetPassword` request, leaving the connection as `getPassword()` leaves it, and keeps the
store and everything else as it was; when the store is empty the whole effect is that of
`getPassword()`.  For every other error kind nothing changes. -/
theorem onUnauthorizedErrorReceived_effect (s : CTelegramAuthModule) (c : CTelegramConnection)
    (h : s.activeConnection = some c) :
    onUnauthorizedErrorReceived s UnauthorizedError.UnauthorizedSessionPasswordNeeded =
        some { s with
          activeConnection := some
            ⟨c.sent ++ [ConnectionRequest.accountGetPassword], c.requestId⟩ } ∧
      (getPassword s).2.activeConnection = some
          ⟨c.sent ++ [ConnectionRequest.accountGetPassword], c.requestId⟩ ∧
      (s.m_passwordInfo.isEmpty = true →
        onUnauthorizedErrorReceived s UnauthorizedError.UnauthorizedSessionPasswordNeeded =
          some (getPassword s).2) ∧
      ∀ tag, onUnauthorizedErrorReceived s (UnauthorizedError.other tag) = some s := by
  refine ⟨?_, ?_, ?_, ?_⟩
  · simp [onUnauthorizedErrorReceived, h, CTelegramConnection.accountGetPassword]
  · simp [getPassword, h, CTelegramConnection.accountGetPassword]
  · intro he
    have hm := QMap.eq_empty_of_isEmpty s.m_passwordInfo he
    simp [onUnauthorizedErrorReceived, getPassword, h, QMap.clear, hm]
  · intro tag
    simp [onUnauthorizedErrorReceived]

/-- Witness of C6 as amended: the module with an empty store and a fresh connection. -/
theorem onUnauthorizedErrorReceived_effect_witness :
    onUnauthorizedErrorReceived connectedModule
          UnauthorizedError.UnauthorizedSessionPasswordNeeded =
        some { connectedModule with
          activeConnection := some
            ⟨freshConnection.sent ++ [ConnectionRequest.accountGetPassword],
              freshConnection.requestId⟩ } ∧
      (getPassword connectedModule).2.activeConnection = some
          ⟨freshConnection.sent ++ [ConnectionRequest.accountGetPassword],
            freshConnection.requestId⟩ ∧
      (connectedModule.m_passwordInfo.isEmpty = true →
        onUnauthorizedErrorReceived connectedModule
            UnauthorizedError.UnauthorizedSessionPasswordNeeded =
          some (getPassword connectedModule).2) ∧
      ∀ tag, onUnauthorizedErrorReceived connectedModule (UnauthorizedError.other tag) =
        some connectedModule :=
  onUnauthorizedErrorReceived_effect connectedModule freshConnection rfl

/-- C7, as stated, fails: request id 1 is issued by `getPassword()`, the store is cleared, and
the reply for id 1 delivered afterwards is stored, so that the lookup of id 1 succeeds. -/
theorem stale_reply_counterexample :
    (getPassword connectedModule).1 = 1 ∧
      (clear (getPassword connectedModule).2).m_passwordInfo.entries = [] ∧
      (onPasswordReceived (clear (getPassword connectedModule).2) challengeA
          (getPassword connectedModule).1).m_passwordInfo.entries = [(1, challengeA)] ∧
      getPasswordData
          (onPasswordReceived (clear (getPassword connectedModule).2) challengeA
            (getPassword connectedModule).1)
          challengeB (getPassword connectedModule).1 = (true, challengeA) := by
  decide

/-- C7, as amended: after `clear()` or `onConnectionStatusChanged()` the store is empty and
`getPasswordData(out, id)` returns false for every request id, one issued by `getPassword()`
before included; a reply `onPasswordReceived(challenge, id)` delivered after the clear is
stored like any other, and `getPasswordData(out, id)` then returns true with `out` equal to
`challenge`. -/
theorem stale_reply_stored (s : CTelegramAuthModule) (challenge out : TLAccountPassword)
    (id : Nat) :
    (clear s).m_passwordInfo.entries = [] ∧
      onConnectionStatusChanged s = clear s ∧
      getPasswordData (clear s) out id = (false, out) ∧
      getPasswordData (clear (getPassword s).2) out (getPassword s).1 = (false, out) ∧
      (onPasswordReceived (clear s) challenge id).m_passwordInfo.entries = [(id, challenge)] ∧
      getPasswordData (onPasswordReceived (clear s) challenge id) out id = (true, challenge) := by
  refine ⟨rfl, rfl, ?_, ?_, rfl, getPasswordData_stored _ _ _ _⟩
  · exact getPasswordData_of_isEmpty _ _ _ rfl
  · exact getPasswordData_of_isEmpty _ _ _ rfl

end CTelegramAuthModule
end TelegramQt

namespace TelegramQt
namespace CTelegramAuthModule

set_option maxRecDepth 1000000

/-! ## The sentinel lookup and the string overload of `tryPassword` -/

/-- The store after a sequence of replies is the store before with the replies inserted. -/
theorem receiveAll_m_passwordInfo (replies : List (TLAccountPassword × Nat))
    (s : CTelegramAuthModule) :
    (receiveAll s replies).m_passwordInfo =
      replies.foldl (fun m r => m.insert r.2 r.1) s.m_passwordInfo := by
  induction replies generalizing s with
  | nil => rfl
  | cons r rest ih =>
    simp only [receiveAll, List.foldl_cons] at ih ⊢
    rw [ih]
    rfl

/-- The store after a sequence of replies with pairwise different request ids does not depend
on the order of the replies. -/
theorem receiveAll_m_passwordInfo_perm (s : CTelegramAuthModule)
    (replies replies' : List (TLAccountPassword × Nat)) (hperm : replies.Perm replies')
    (hids : (replies.map Prod.snd).Nodup) :
    (receiveAll s replies).m_passwordInfo = (receiveAll s replies').m_passwordInfo := by
  rw [receiveAll_m_passwordInfo, receiveAll_m_passwordInfo]
  apply List.Perm.foldl_eq' hperm
  intro x hx y hy m
  by_cases hxy : x = y
  · rw [hxy]
  · have hne : x.2 ≠ y.2 := by
      intro hEq
      exact hxy (List.inj_on_of_nodup_map hids hx hy hEq)
    exact QMap.insert_comm m x.2 y.2 x.1 y.1 hne

/-- The result of `getPasswordData` depends on the state of the module through the store
only. -/
theorem getPasswordData_congr (s t : CTelegramAuthModule) (out : TLAccountPassword) (id : Nat)
    (h : s.m_passwordInfo = t.m_passwordInfo) :
    getPasswordData s out id = getPasswordData t out id := by
  simp [getPasswordData, h]

/-- C10: for every non-empty store, `getPasswordData(out, 0)` returns true and sets `out` to
the challenge stored under the numerically smallest request id of the store; and for replies
with pairwise different request ids the result does not depend on the order in which they were
received. -/
theorem getPasswordData_sentinel_deterministic (s : CTelegramAuthModule)
    (out : TLAccountPassword) (h : s.m_passwordInfo.isEmpty = false) :
    (∃ k v, (k, v) ∈ s.m_passwordInfo.entries ∧ (∀ e ∈ s.m_passwordInfo.entries, k ≤ e.1) ∧
        getPasswordData s out 0 = (true, v)) ∧
      ∀ (t : CTelegramAuthModule) (replies replies' : List (TLAccountPassword × Nat)),
        replies.Perm replies' → (replies.map Prod.snd).Nodup →
          getPasswordData (receiveAll t replies) out 0 =
            getPasswordData (receiveAll t replies') out 0 := by
  constructor
  · obtain ⟨k, v, hmem, hmin, _, hget⟩ := getPasswordData_zero s out h
    exact ⟨k, v, hmem, hmin, hget⟩
  · intro t replies replies' hperm hids
    exact getPasswordData_congr _ _ out 0 (receiveAll_m_passwordInfo_perm t _ _ hperm hids)

/-- Witness of C10: two challenges received in descending order of request id; the sentinel
lookup gives the one under the smaller id, which was received last. -/
theorem getPasswordData_sentinel_deterministic_witness :
    (∃ k v, (k, v) ∈ (receiveAll connectedModule
            [(challengeB, 2), (challengeA, 1)]).m_passwordInfo.entries ∧
        (∀ e ∈ (receiveAll connectedModule
            [(challengeB, 2), (challengeA, 1)]).m_passwordInfo.entries, k ≤ e.1) ∧
        getPasswordData (receiveAll connectedModule [(challengeB, 2), (challengeA, 1)])
          challengeB 0 = (true, v)) ∧
      ∀ (t : CTelegramAuthModule) (replies replies' : List (TLAccountPassword × Nat)),
        replies.Perm replies' → (replies.map Prod.snd).Nodup →
          getPasswordData (receiveAll t replies) challengeB 0 =
            getPasswordData (receiveAll t replies') challengeB 0 :=
  getPasswordData_sentinel_deterministic
    (receiveAll connectedModule [(challengeB, 2), (challengeA, 1)]) challengeB (by decide)

/-- C5, as stated, fails when the most recently received challenge is not the one with the
smallest request id: after the replies (`challengeA`, 1) and then (`challengeB`, 2) the string
overload hashes with the salt of `challengeA`, whatever the hash function; with SHA-256 the
digest it submits for "hunter2" is `b36ddf5f…`, whereas the salt of `challengeB`, received
last, gives `a07cfe6c…`. -/
theorem tryPasswordQString_counterexample :
    (receiveAll connectedModule [(challengeA, 1), (challengeB, 2)]).m_passwordInfo.isEmpty
        = false ∧
      challengeA.currentSalt ≠ challengeB.currentSalt ∧
      (∀ sha256 : QByteArray → QByteArray,
        tryPasswordQString sha256
            (receiveAll connectedModule [(challengeA, 1), (challengeB, 2)]) "hunter2" =
          some (tryPassword sha256
            (receiveAll connectedModule [(challengeA, 1), (challengeB, 2)])
            challengeA.currentSalt (toUtf8 "hunter2"))) ∧
      ((tryPasswordQString Utils.sha256
            (receiveAll connectedModule [(challengeA, 1), (challengeB, 2)]) "hunter2").bind
          (fun t => t.activeConnection.map (fun c => c.sent)) =
        some [ConnectionRequest.authCheckPassword
          [179, 109, 223, 95, 115, 93, 25, 141, 244, 93, 77, 29, 109, 8, 36, 214,
            53, 197, 15, 219, 236, 173, 108, 42, 146, 16, 128, 0, 226, 30, 145, 172]]) ∧
      ((tryPassword Utils.sha256
            (receiveAll connectedModule [(challengeA, 1), (challengeB, 2)])
            challengeB.currentSalt (toUtf8 "hunter2")).activeConnection.map (fun c => c.sent) =
        some [ConnectionRequest.authCheckPassword
          [160, 124, 254, 108, 248, 97, 116, 13, 16, 193, 202, 30, 158, 61, 56, 53,
            94, 177, 141, 102, 186, 49, 119, 11, 19, 5, 149, 15, 59, 173, 114, 207]]) := by
  refine ⟨by decide, by decide, fun sha256 => rfl, by decide, by decide⟩

/-- C5, as amended: on every non-empty store, `tryPassword(password)` (string overload)
delegates to `tryPassword(salt, utf8(password))` where `salt` is the `currentSalt` of the
challenge stored under the smallest request id; that is the most recently received challenge
when the store was empty before its reply arrived. -/
theorem tryPasswordQString_delegates (sha256 : QByteArray → QByteArray)
    (s : CTelegramAuthModule) (password : QString) (h : s.m_passwordInfo.isEmpty = false) :
    (∃ k info, (k, info) ∈ s.m_passwordInfo.entries ∧
        (∀ e ∈ s.m_passwordInfo.entries, k ≤ e.1) ∧
        tryPasswordQString sha256 s password =
          some (tryPassword sha256 s info.currentSalt (toUtf8 password))) ∧
      ∀ (t : CTelegramAuthModule) (challenge : TLAccountPassword) (id : Nat),
        t.m_passwordInfo.isEmpty = true →
          tryPasswordQString sha256 (onPasswordReceived t challenge id) password =
            some (tryPassword sha256 (onPasswordReceived t challenge id)
              challenge.currentSalt (toUtf8 password)) := by
  constructor
  · obtain ⟨k, v, hmem, hmin, hfirst, _⟩ := getPasswordData_zero s default h
    refine ⟨k, v, hmem, hmin, ?_⟩
    simp [tryPasswordQString, hfirst]
  · intro t challenge id ht
    have hnil : t.m_passwordInfo.entries = [] := by
      simpa [QMap.isEmpty] using ht
    simp [tryPasswordQString, onPasswordReceived, QMap.first, QMap.insert, hnil, insertEntries]

/-- Witness of C5 as amended: the store after the replies (`challengeA`, 1) and
(`challengeB`, 2). -/
theorem tryPasswordQString_delegates_witness :
    (∃ k info, (k, info) ∈ (receiveAll connectedModule
            [(challengeA, 1), (challengeB, 2)]).m_passwordInfo.entries ∧
        (∀ e ∈ (receiveAll connectedModule
            [(challengeA, 1), (challengeB, 2)]).m_passwordInfo.entries, k ≤ e.1) ∧
        tryPasswordQString Utils.sha256
            (receiveAll connectedModule [(challengeA, 1), (challengeB, 2)]) "hunter2" =
          some (tryPassword Utils.sha256
            (receiveAll connectedModule [(challengeA, 1), (challengeB, 2)])
            info.currentSalt (toUtf8 "hunter2"))) ∧
      ∀ (t : CTelegramAuthModule) (challenge : TLAccountPassword) (id : Nat),
        t.m_passwordInfo.isEmpty = true →
          tryPasswordQString Utils.sha256 (onPasswordReceived t challenge id) "hunter2" =
            some (tryPassword Utils.sha256 (onPasswordReceived t challenge id)
              challenge.currentSalt (toUtf8 "hunter2")) :=
  tryPasswordQString_delegates Utils.sha256
    (receiveAll connectedModule [(challengeA, 1), (challengeB, 2)]) "hunter2" (by decide)

end CTelegramAuthModule
end TelegramQt

namespace TelegramQt

/-! ## SHA-256 on the standard test vector -/

set_option maxRecDepth 1000000 in
/-- The model of `Utils::sha256` gives the digest FIPS 180-4 lists for the message "abc". -/
theorem Utils.sha256_abc :
    Utils.sha256 (toUtf8 "abc") =
      [0xba, 0x78, 0x16, 0xbf, 0x8f, 0x01, 0xcf, 0xea, 0x41, 0x41, 0x40, 0xde, 0x5d, 0xae, 0x22,
        0x23, 0xb0, 0x03, 0x61, 0xa3, 0x96, 0x17, 0x7a, 0x9c, 0xb4, 0x10, 0xff, 0x61, 0xf2, 0x00,
        0x15, 0xad] := by
  decide

/-! ## Object representation of integers -/

/-- The representation of a `width`-byte integer has `width` bytes. -/
theorem toBytesLE_length (n u : Nat) : (toBytesLE n u).length = n := by
  induction n generalizing u with
  | zero => rfl
  | succ n ih => simp [toBytesLE, ih]

/-- Reading back the `n` low-order bytes of `u` gives `u` modulo `256 ^ n`. -/
theorem fromBytesLE_toBytesLE (n u : Nat) : fromBytesLE (toBytesLE n u) = u % 256 ^ n := by
  induction n generalizing u with
  | zero => simp [toBytesLE, fromBytesLE, Nat.mod_one]
  | succ n ih =>
    simp only [toBytesLE, fromBytesLE, ih]
    rw [Nat.pow_succ, Nat.mul_comm (256 ^ n) 256, Nat.mod_mul]

/-- The object representation has `width` bytes, in either byte order. -/
theorem objectBytes_length (order : ByteOrder) (width : Nat) (i : Int) :
    (objectBytes order width i).length = width := by
  cases order <;> simp [objectBytes, toBytesLE_length]

/-- The unsigned value read back from an object representation. -/
theorem objectValue_objectBytes (order : ByteOrder) (width : Nat) (i : Int) :
    objectValue order width (objectBytes order width i) =
      if (i % 2 ^ (8 * width)).toNat % 256 ^ width < 2 ^ (8 * width - 1)
      then (((i % 2 ^ (8 * width)).toNat % 256 ^ width : Nat) : Int)
      else (((i % 2 ^ (8 * width)).toNat % 256 ^ width : Nat) : Int) - 2 ^ (8 * width) := by
  cases order <;> simp [objectValue, objectBytes, fromBytesLE_toBytesLE]

/-- A 32-bit signed integer is recovered from its object representation. -/
theorem objectValue_objectBytes_32 (order : ByteOrder) (i : Int)
    (hlo : -2 ^ 31 ≤ i) (hhi : i < 2 ^ 31) :
    objectValue order 4 (objectBytes order 4 i) = i := by
  rw [objectValue_objectBytes]
  norm_num
  split_ifs with h <;> omega

/-- A 64-bit signed integer is recovered from its object representation. -/
theorem objectValue_objectBytes_64 (order : ByteOrder) (i : Int)
    (hlo : -2 ^ 63 ≤ i) (hhi : i < 2 ^ 63) :
    objectValue order 8 (objectBytes order 8 i) = i := by
  rw [objectValue_objectBytes]
  norm_num
  split_ifs with h <;> omega

/-! ## Writing and reading back -/

namespace QIODevice

/-- After `data` was written at a position inside the buffer and the position was set back,
a read of `data.length` bytes obtains `data` and leaves the device as the write left it. -/
theorem read_seek_write (d : QIODevice) (data : QByteArray) (hr : d.readable = true)
    (hw : d.writable = true) (hpos : d.pos ≤ d.buffer.length) :
    ((d.write data).seek d.pos).read data.length = (data, d.write data) := by
  have htake : (d.buffer.take d.pos).length = d.pos := by
    rw [List.length_take]; omega
  have hrb : ((d.write data).seek d.pos).readableBytes =
      data ++ d.buffer.drop (d.pos + data.length) := by
    simp only [readableBytes, write, seek, hw, hr, if_true, List.append_assoc]
    rw [List.drop_append_eq_append_drop, htake]
    simp [List.drop_eq_nil_of_le, htake]
  simp only [read, hrb]
  simp [write, seek, hw]

end QIODevice

end TelegramQt

namespace TelegramQt
namespace CRawStream

/-- C8, as stated, fails on a device that is not positioned at the end of its data, and on one
that is not open for writing: on a device holding six bytes, positioned at its start,
`operator<<` of a 32-bit value overwrites the first four bytes and appends none, and of a
64-bit value overwrites all six and appends two; on a device open for reading only, `operator<<`
stores nothing, and `operator>>` from the same position yields 513 where 5 was written. -/
theorem fixed_width_append_counterexample :
    write_qint32 ByteOrder.LittleEndian ⟨some filledDevice⟩ 5 =
        some ⟨some ⟨[5, 0, 0, 0, 9, 9], 4, true, true⟩⟩ ∧
      write_qint32 ByteOrder.BigEndian ⟨some filledDevice⟩ 5 =
        some ⟨some ⟨[0, 0, 0, 5, 9, 9], 4, true, true⟩⟩ ∧
      write_qint64 ByteOrder.LittleEndian ⟨some filledDevice⟩ 5 =
        some ⟨some ⟨[5, 0, 0, 0, 0, 0, 0, 0], 8, true, true⟩⟩ ∧
      write_qint32 ByteOrder.LittleEndian ⟨some shortDevice⟩ 5 = some ⟨some shortDevice⟩ ∧
      (write_qint32 ByteOrder.LittleEndian ⟨some shortDevice⟩ 5).bind
          (fun s => s.m_device.bind (fun w =>
            read_qint32 ByteOrder.LittleEndian ⟨some (w.seek shortDevice.pos)⟩ 0)) =
        some (⟨some exhaustedDevice⟩, 513) := by
  decide

/-- C8, as amended: on a device open for reading and writing whose position lies within its
data, for every 32-bit (resp. 64-bit) signed integer `v`, `operator<<(v)` stores the 4
(resp. 8) bytes of `v` at the position, which moves past them: they replace the bytes that
were there and lengthen the data only past its end, so that at the end of the data they are
appended to it; and `operator>>` reading from the position where they were written yields `v`
and leaves the position just past them, whatever the destination held and whatever the byte
order of the host. -/
theorem fixed_width_round_trip (order : ByteOrder) (d : QIODevice) (v32 v64 i : Int)
    (hr : d.readable = true) (hw : d.writable = true) (hpos : d.pos ≤ d.buffer.length)
    (h32 : -2 ^ 31 ≤ v32 ∧ v32 < 2 ^ 31) (h64 : -2 ^ 63 ≤ v64 ∧ v64 < 2 ^ 63) :
    ((objectBytes order 4 v32).length = 4 ∧
      (d.buffer.take d.pos ++ objectBytes order 4 v32 ++ d.buffer.drop (d.pos + 4)).length =
        max d.buffer.length (d.pos + 4) ∧
      write_qint32 order ⟨some d⟩ v32 = some ⟨some
        { d with
          buffer := d.buffer.take d.pos ++ objectBytes order 4 v32 ++ d.buffer.drop (d.pos + 4),
          pos := d.pos + 4 }⟩ ∧
      (d.pos = d.buffer.length →
        write_qint32 order ⟨some d⟩ v32 = some ⟨some
          { d with buffer := d.buffer ++ objectBytes order 4 v32, pos := d.pos + 4 }⟩) ∧
      (write_qint32 order ⟨some d⟩ v32).bind (fun s => s.m_device.bind (fun w =>
          read_qint32 order ⟨some (w.seek d.pos)⟩ i)) =
        some (⟨some
          { d with
            buffer := d.buffer.take d.pos ++ objectBytes order 4 v32 ++
              d.buffer.drop (d.pos + 4),
            pos := d.pos + 4 }⟩, v32)) ∧
    ((objectBytes order 8 v64).length = 8 ∧
      (d.buffer.take d.pos ++ objectBytes order 8 v64 ++ d.buffer.drop (d.pos + 8)).length =
        max d.buffer.length (d.pos + 8) ∧
      write_qint64 order ⟨some d⟩ v64 = some ⟨some
        { d with
          buffer := d.buffer.take d.pos ++ objectBytes order 8 v64 ++ d.buffer.drop (d.pos + 8),
          pos := d.pos + 8 }⟩ ∧
      (d.pos = d.buffer.length →
        write_qint64 order ⟨some d⟩ v64 = some ⟨some
          { d with buffer := d.buffer ++ objectBytes order 8 v64, pos := d.pos + 8 }⟩) ∧
      (write_qint64 order ⟨some d⟩ v64).bind (fun s => s.m_device.bind (fun w =>
          read_qint64 order ⟨some (w.seek d.pos)⟩ i)) =
        some (⟨some
          { d with
            buffer := d.buffer.take d.pos ++ objectBytes order 8 v64 ++
              d.buffer.drop (d.pos + 8),
            pos := d.pos + 8 }⟩, v64)) := by
  have hl4 := objectBytes_length order 4 v32
  have hl8 := objectBytes_length order 8 v64
  have hw4 : d.write (objectBytes order 4 v32) =
      { d with
        buffer := d.buffer.take d.pos ++ objectBytes order 4 v32 ++ d.buffer.drop (d.pos + 4),
        pos := d.pos + 4 } := by
    simp [QIODevice.write, hw, hl4]
  have hw8 : d.write (objectBytes order 8 v64) =
      { d with
        buffer := d.buffer.take d.pos ++ objectBytes order 8 v64 ++ d.buffer.drop (d.pos + 8),
        pos := d.pos + 8 } := by
    simp [QIODevice.write, hw, hl8]
  have hr4 := QIODevice.read_seek_write d (objectBytes order 4 v32) hr hw hpos
  have hr8 := QIODevice.read_seek_write d (objectBytes order 8 v64) hr hw hpos
  rw [hl4, hw4] at hr4
  rw [hl8, hw8] at hr8
  have hlen4 : (d.buffer.take d.pos ++ objectBytes order 4 v32 ++
      d.buffer.drop (d.pos + 4)).length = max d.buffer.length (d.pos + 4) := by
    simp only [List.length_append, List.length_take, List.length_drop, hl4]
    omega
  have hlen8 : (d.buffer.take d.pos ++ objectBytes order 8 v64 ++
      d.buffer.drop (d.pos + 8)).length = max d.buffer.length (d.pos + 8) := by
    simp only [List.length_append, List.length_take, List.length_drop, hl8]
    omega
  refine ⟨⟨hl4, hlen4, ?_, ?_, ?_⟩, ⟨hl8, hlen8, ?_, ?_, ?_⟩⟩
  · simp [write_qint32, hw4]
  · intro hend
    simp [write_qint32, hw4, hend]
  · simp only [write_qint32, hw4, Option.some_bind, read_qint32, hr4, hl4]
    rw [List.drop_eq_nil_of_le (le_of_eq (objectBytes_length order 4 i)), List.append_nil,
      objectValue_objectBytes_32 order v32 h32.1 h32.2]
  · simp [write_qint64, hw8]
  · intro hend
    simp [write_qint64, hw8, hend]
  · simp only [write_qint64, hw8, Option.some_bind, read_qint64, hr8, hl8]
    rw [List.drop_eq_nil_of_le (le_of_eq (objectBytes_length order 8 i)), List.append_nil,
      objectValue_objectBytes_64 order v64 h64.1 h64.2]

/-- Witness of C8 as amended: the values -5 and 2 ^ 40 + 1 written to an empty device on a
little-endian host, and read back into a destination holding 77. -/
theorem fixed_width_round_trip_witness :
    ((objectBytes ByteOrder.LittleEndian 4 (-5)).length = 4 ∧
      (emptyDevice.buffer.take emptyDevice.pos ++ objectBytes ByteOrder.LittleEndian 4 (-5) ++
          emptyDevice.buffer.drop (emptyDevice.pos + 4)).length =
        max emptyDevice.buffer.length (emptyDevice.pos + 4) ∧
      write_qint32 ByteOrder.LittleEndian ⟨some emptyDevice⟩ (-5) = some ⟨some
        { emptyDevice with
          buffer := emptyDevice.buffer.take emptyDevice.pos ++
            objectBytes ByteOrder.LittleEndian 4 (-5) ++
            emptyDevice.buffer.drop (emptyDevice.pos + 4),
          pos := emptyDevice.pos + 4 }⟩ ∧
      (emptyDevice.pos = emptyDevice.buffer.length →
        write_qint32 ByteOrder.LittleEndian ⟨some emptyDevice⟩ (-5) = some ⟨some
          { emptyDevice with
            buffer := emptyDevice.buffer ++ objectBytes ByteOrder.LittleEndian 4 (-5),
            pos := emptyDevice.pos + 4 }⟩) ∧
      (write_qint32 ByteOrder.LittleEndian ⟨some emptyDevice⟩ (-5)).bind
          (fun s => s.m_device.bind (fun w =>
            read_qint32 ByteOrder.LittleEndian ⟨some (w.seek emptyDevice.pos)⟩ 77)) =
        some (⟨some
          { emptyDevice with
            buffer := emptyDevice.buffer.take emptyDevice.pos ++
              objectBytes ByteOrder.LittleEndian 4 (-5) ++
              emptyDevice.buffer.drop (emptyDevice.pos + 4),
            pos := emptyDevice.pos + 4 }⟩, -5)) ∧
    ((objectBytes ByteOrder.LittleEndian 8 (2 ^ 40 + 1)).length = 8 ∧
      (emptyDevice.buffer.take emptyDevice.pos ++
          objectBytes ByteOrder.LittleEndian 8 (2 ^ 40 + 1) ++
          emptyDevice.buffer.drop (emptyDevice.pos + 8)).length =
        max emptyDevice.buffer.length (emptyDevice.pos + 8) ∧
      write_qint64 ByteOrder.LittleEndian ⟨some emptyDevice⟩ (2 ^ 40 + 1) = some ⟨some
        { emptyDevice with
          buffer := emptyDevice.buffer.take emptyDevice.pos ++
            objectBytes ByteOrder.LittleEndian 8 (2 ^ 40 + 1) ++
            emptyDevice.buffer.drop (emptyDevice.pos + 8),
          pos := emptyDevice.pos + 8 }⟩ ∧
      (emptyDevice.pos = emptyDevice.buffer.length →
        write_qint64 ByteOrder.LittleEndian ⟨some emptyDevice⟩ (2 ^ 40 + 1) = some ⟨some
          { emptyDevice with
            buffer := emptyDevice.buffer ++ objectBytes ByteOrder.LittleEndian 8 (2 ^ 40 + 1),
            pos := emptyDevice.pos + 8 }⟩) ∧
      (write_qint64 ByteOrder.LittleEndian ⟨some emptyDevice⟩ (2 ^ 40 + 1)).bind
          (fun s => s.m_device.bind (fun w =>
            read_qint64 ByteOrder.LittleEndian ⟨some (w.seek emptyDevice.pos)⟩ 77)) =
        some (⟨some
          { emptyDevice with
            buffer := emptyDevice.buffer.take emptyDevice.pos ++
              objectBytes ByteOrder.LittleEndian 8 (2 ^ 40 + 1) ++
              emptyDevice.buffer.drop (emptyDevice.pos + 8),
            pos := emptyDevice.pos + 8 }⟩, 2 ^ 40 + 1)) :=
  fixed_width_round_trip ByteOrder.LittleEndian emptyDevice (-5) (2 ^ 40 + 1) 77 rfl rfl
    (by decide) (by decide) (by decide)

/-- C9, as stated, fails on a device holding two readable bytes: the 32-bit and the 64-bit
read both complete, consume the two bytes, and hand the caller a destination of which only the
two leading bytes were overwritten (it held 0 before). -/
theorem short_read_counterexample :
    shortDevice.readableBytes.length = 2 ∧
      read_qint32 ByteOrder.LittleEndian ⟨some shortDevice⟩ 0 =
        some (⟨some (shortDevice.seek 2)⟩, 513) ∧
      read_qint32 ByteOrder.BigEndian ⟨some shortDevice⟩ 0 =
        some (⟨some (shortDevice.seek 2)⟩, 16908288) ∧
      read_qint64 ByteOrder.LittleEndian ⟨some shortDevice⟩ 0 =
        some (⟨some (shortDevice.seek 2)⟩, 513) ∧
      read_qint64 ByteOrder.BigEndian ⟨some shortDevice⟩ 0 =
        some (⟨some (shortDevice.seek 2)⟩, 72620543991349248) := by
  decide

/-- C9, as amended: for every device holding fewer than 4 (resp. 8) readable bytes, the 32-bit
(resp. 64-bit) read completes without reporting anything: it consumes the readable bytes and
puts them over the leading bytes of the destination, whose remaining bytes keep their content;
on a device with no readable byte at all the destination keeps its value. -/
theorem short_read_partial (order : ByteOrder) (d32 d64 e : QIODevice) (i32 i64 : Int)
    (h4 : d32.readableBytes.length < 4) (h8 : d64.readableBytes.length < 8)
    (h0 : e.readableBytes = [])
    (hi32 : -2 ^ 31 ≤ i32 ∧ i32 < 2 ^ 31) (hi64 : -2 ^ 63 ≤ i64 ∧ i64 < 2 ^ 63) :
    read_qint32 order ⟨some d32⟩ i32 =
        some (⟨some (d32.seek (d32.pos + d32.readableBytes.length))⟩,
          objectValue order 4 (d32.readableBytes ++
            (objectBytes order 4 i32).drop d32.readableBytes.length)) ∧
      read_qint64 order ⟨some d64⟩ i64 =
        some (⟨some (d64.seek (d64.pos + d64.readableBytes.length))⟩,
          objectValue order 8 (d64.readableBytes ++
            (objectBytes order 8 i64).drop d64.readableBytes.length)) ∧
      read_qint32 order ⟨some e⟩ i32 = some (⟨some e⟩, i32) ∧
      read_qint64 order ⟨some e⟩ i64 = some (⟨some e⟩, i64) := by
  have ht4 : d32.readableBytes.take 4 = d32.readableBytes :=
    List.take_of_length_le (by omega)
  have ht8 : d64.readableBytes.take 8 = d64.readableBytes :=
    List.take_of_length_le (by omega)
  refine ⟨?_, ?_, ?_, ?_⟩
  · simp [read_qint32, QIODevice.read, QIODevice.seek, ht4]
  · simp [read_qint64, QIODevice.read, QIODevice.seek, ht8]
  · simp [read_qint32, QIODevice.read, h0, objectValue_objectBytes_32 order i32 hi32.1 hi32.2]
  · simp [read_qint64, QIODevice.read, h0, objectValue_objectBytes_64 order i64 hi64.1 hi64.2]

/-- Witness of C9 as amended: the device holding two bytes, and the same device once they were
read, on a little-endian host with destinations holding -1. -/
theorem short_read_partial_witness :
    read_qint32 ByteOrder.LittleEndian ⟨some shortDevice⟩ (-1) =
        some (⟨some (shortDevice.seek (shortDevice.pos + shortDevice.readableBytes.length))⟩,
          objectValue ByteOrder.LittleEndian 4 (shortDevice.readableBytes ++
            (objectBytes ByteOrder.LittleEndian 4 (-1)).drop
              shortDevice.readableBytes.length)) ∧
      read_qint64 ByteOrder.LittleEndian ⟨some shortDevice⟩ (-1) =
        some (⟨some (shortDevice.seek (shortDevice.pos + shortDevice.readableBytes.length))⟩,
          objectValue ByteOrder.LittleEndian 8 (shortDevice.readableBytes ++
            (objectBytes ByteOrder.LittleEndian 8 (-1)).drop
              shortDevice.readableBytes.length)) ∧
      read_qint32 ByteOrder.LittleEndian ⟨some exhaustedDevice⟩ (-1) =
        some (⟨some exhaustedDevice⟩, -1) ∧
      read_qint64 ByteOrder.LittleEndian ⟨some exhaustedDevice⟩ (-1) =
        some (⟨some exhaustedDevice⟩, -1) :=
  short_read_partial ByteOrder.LittleEndian shortDevice shortDevice exhaustedDevice (-1) (-1)
    (by decide) (by decide) (by decide) (by decide) (by decide)

end CRawStream
end TelegramQt
